import Mathlib

/-!
Verification of the Vienna Cabaret Theater backend (FastAPI + MongoDB).

Shallow embedding of `src/schemas.py` (pydantic models and their field
constraints) and `src/main.py` (the request handlers), over an explicit
document-store state.  Machine integers in the source are unbounded Python
ints, so they are modelled by `Int`; floats carry only literal values like
`18.0` here and are modelled by `Rat`; MongoDB document ids are modelled by
`String` (the handlers compare them only for equality).

The document-store adapter (`database.py`, imported by `main.py` as
`from database import db, create_document, get_documents`) is not part of
the sources; its `create_document` operation is modelled from the spec,
see `DB.insertReservation` and friends below.
-/

namespace Cabaret

/-! ### Domain schemas (`src/schemas.py`) -/

/-- `class Event(BaseModel)` from `schemas.py`: the pydantic record, without
any document id field (the model declares none). -/
structure Event where
  title : String
  description : String
  genre : String
  date : Int
  duration_minutes : Int
  price_eur : Rat
  seats_total : Int
  seats_available : Int
  image_url : Option String
deriving Repr, DecidableEq

/-- The field constraints pydantic checks for `Event`:
`duration_minutes: ge=10, le=300`, `price_eur: ge=0`, `seats_total: ge=1`,
`seats_available: ge=0`.  No other numeric constraint is declared on the
model (in particular none relating `seats_available` to `seats_total`). -/
def Event.validb (e : Event) : Bool :=
  decide (10 ≤ e.duration_minutes) && decide (e.duration_minutes ≤ 300) &&
  decide (0 ≤ e.price_eur) &&
  decide (1 ≤ e.seats_total) &&
  decide (0 ≤ e.seats_available)

/-- `class Reservation(BaseModel)` from `schemas.py`. -/
structure Reservation where
  event_id : String
  name : String
  email : String
  tickets : Int
  note : Option String
deriving Repr, DecidableEq

/-- The numeric field constraint pydantic checks for `Reservation`:
`tickets: ge=1, le=10`.  (`email: EmailStr` is validated by pydantic's
email validator, external to this repository.) -/
def Reservation.validb (r : Reservation) : Bool :=
  decide (1 ≤ r.tickets) && decide (r.tickets ≤ 10)

/-- `class Ownerprofile(BaseModel)` from `schemas.py`. -/
structure Ownerprofile where
  name : String
  role : String
  bio : String
  image_url : Option String
  instagram : Option String
  website : Option String
deriving Repr, DecidableEq

/-- `class Theater(BaseModel)` from `schemas.py`. -/
structure Theater where
  name : String
  tagline : String
  story : String
  address : String
  phone : String
  email : String
  opening_hours : Option String
  transport_howto : Option String
deriving Repr, DecidableEq

/-- `class Contactmessage(BaseModel)` from `schemas.py`. -/
structure Contactmessage where
  name : String
  email : String
  subject : String
  message : String
deriving Repr, DecidableEq

/-- `class Video(BaseModel)` from `schemas.py`: `month_key`, `video_url`,
optional `caption`. -/
structure Video where
  month_key : String
  video_url : String
  caption : Option String
deriving Repr, DecidableEq

/-- The field constraints pydantic checks for `Video`: none beyond the
field types.  `month_key` is declared as `str = Field(..., description=
"Format YYYY-MM identifying the month")` — the format appears only in the
description text, not as a validation pattern, so every string value is
accepted. -/
def Video.validb (_v : Video) : Bool := true

/-- Spec-side definition (refinement target, written from the spec's words,
not from the source): a string of the exact shape `"YYYY-MM"` — four
digits, a hyphen, two digits. -/
def monthKeySpecFormat (s : String) : Bool :=
  match s.toList with
  | [y1, y2, y3, y4, h, m1, m2] =>
    y1.isDigit && y2.isDigit && y3.isDigit && y4.isDigit &&
    (h == '-') && m1.isDigit && m2.isDigit
  | _ => false

/-! ### The document store state

Each collection is named by the lowercased schema class name; a stored
document is the schema record together with its generated `_id` and the
`created_at` stamp written at insertion (and, for events, the `updated_at`
stamp written by the reservation decrement). -/

/-- A document of the `event` collection. -/
structure EventDoc where
  id : String
  ev : Event
  created_at : Int
  updated_at : Option Int
deriving Repr, DecidableEq

/-- A document of the `reservation` collection. -/
structure ReservationDoc where
  id : String
  res : Reservation
  created_at : Int
deriving Repr, DecidableEq

/-- A document of the `theater` collection. -/
structure TheaterDoc where
  id : String
  th : Theater
  created_at : Int
deriving Repr, DecidableEq

/-- A document of the `ownerprofile` collection. -/
structure OwnerDoc where
  id : String
  owner : Ownerprofile
  created_at : Int
deriving Repr, DecidableEq

/-- A document of the `contactmessage` collection. -/
structure ContactDoc where
  id : String
  msg : Contactmessage
  created_at : Int
deriving Repr, DecidableEq

/-- A document of the `video` collection. -/
structure VideoDoc where
  id : String
  video : Video
  created_at : Int
deriving Repr, DecidableEq

/-- The MongoDB database: one list of documents per collection (in insertion
order, which is the store's natural order), plus a counter from which
generated ids are drawn. -/
structure DB where
  events : List EventDoc
  reservations : List ReservationDoc
  theaters : List TheaterDoc
  ownerprofiles : List OwnerDoc
  contactmessages : List ContactDoc
  videos : List VideoDoc
  nextId : Nat
deriving Repr, DecidableEq

/-- The id the store will generate for the next inserted document. -/
def DB.freshId (db : DB) : String := toString db.nextId

/-- Modelled from the spec: `create(collectionName, record) → generated id`
(§4.1 of the spec; `create_document` lives in `database.py`, which is not
among the sources).  Inserts the record with a generated id and its
creation timestamp, and returns the generated id.  One instance per
collection, `reservation` here. -/
def DB.insertReservation (db : DB) (r : Reservation) (now : Int) : String × DB :=
  (db.freshId,
   { db with reservations := db.reservations ++ [⟨db.freshId, r, now⟩],
             nextId := db.nextId + 1 })

/-- Modelled from the spec: `create_document` on the `theater` collection. -/
def DB.insertTheater (db : DB) (t : Theater) (now : Int) : String × DB :=
  (db.freshId,
   { db with theaters := db.theaters ++ [⟨db.freshId, t, now⟩],
             nextId := db.nextId + 1 })

/-- Modelled from the spec: `create_document` on the `ownerprofile`
collection. -/
def DB.insertOwner (db : DB) (o : Ownerprofile) (now : Int) : String × DB :=
  (db.freshId,
   { db with ownerprofiles := db.ownerprofiles ++ [⟨db.freshId, o, now⟩],
             nextId := db.nextId + 1 })

/-- Modelled from the spec: `create_document` on the `event` collection. -/
def DB.insertEvent (db : DB) (e : Event) (now : Int) : String × DB :=
  (db.freshId,
   { db with events := db.events ++ [⟨db.freshId, e, now, none⟩],
             nextId := db.nextId + 1 })

/-- Modelled from the spec: `create_document` on the `video` collection. -/
def DB.insertVideo (db : DB) (v : Video) (now : Int) : String × DB :=
  (db.freshId,
   { db with videos := db.videos ++ [⟨db.freshId, v, now⟩],
             nextId := db.nextId + 1 })

/-! ### The reservation flow (`create_reservation` in `src/main.py`)

The handler raises `HTTPException` for the three failure modes; the raised
status codes are modelled as an explicit result type. -/

/-- Outcome of `POST /api/reservations`: the success payload
`{reservation_id, ...}` or one of the three raised `HTTPException`s
(404 "Event not found", 400 "Not enough seats available",
409 "Seats no longer available"). -/
inductive ReserveResult where
  | ok (reservation_id : String)
  | notFound
  | insufficientCapacity
  | conflict
deriving Repr, DecidableEq

/-- `db["event"].find_one({"_id": event_id})`: MongoDB returns the first
document of the collection whose `_id` equals the filter value.  (The
handler tries the id both as `ObjectId` and as a raw string; both branches
are equality lookups on `_id`, modelled as one.) -/
def findEvent (db : DB) (eid : String) : Option EventDoc :=
  db.events.find? (fun d => d.id == eid)

/-- The match filter of the conditional update:
`{"_id": event["_id"], "seats_available": {"$gte": res.tickets}}`. -/
def casMatch (eid : String) (tickets : Int) (d : EventDoc) : Bool :=
  d.id == eid && decide (tickets ≤ d.ev.seats_available)

/-- The update of the conditional update:
`{"$inc": {"seats_available": -res.tickets}, "$set": {"updated_at": now}}`. -/
def casApply (tickets : Int) (now : Int) (d : EventDoc) : EventDoc :=
  { d with ev := { d.ev with seats_available := d.ev.seats_available - tickets },
           updated_at := some now }

/-- MongoDB `find_one_and_update` with `ReturnDocument.AFTER` on a list of
documents: update the first document matching `p` by `f` and return the
post-update document together with the new list; `none` when no document
matches. -/
def updateFirst (p : EventDoc → Bool) (f : EventDoc → EventDoc) :
    List EventDoc → Option (EventDoc × List EventDoc)
  | [] => none
  | d :: ds =>
    if p d then some (f d, f d :: ds)
    else
      match updateFirst p f ds with
      | none => none
      | some (u, ds') => some (u, d :: ds')

/-- The atomic conditional decrement of `create_reservation` (lines 97–101
of `main.py`), as one indivisible operation on the store state. -/
def find_one_and_update (db : DB) (eid : String) (tickets now : Int) :
    Option (EventDoc × DB) :=
  match updateFirst (casMatch eid tickets) (casApply tickets now) db.events with
  | none => none
  | some (u, evs) => some (u, { db with events := evs })

/-- `create_reservation` from `main.py`, split at its one interleaving
point: the event lookup and the optimistic capacity pre-check read the
store state `dbRead`, while the atomic conditional update and the
reservation insert execute against the store state `dbCAS` (which, under
concurrency, may have changed since the read).  Returns the store state
after the handler together with its outcome. -/
def create_reservation_phased (dbRead dbCAS : DB) (res : Reservation) (now : Int) :
    DB × ReserveResult :=
  match findEvent dbRead res.event_id with
  | none => (dbCAS, .notFound)
  | some event =>
    if event.ev.seats_available < res.tickets then (dbCAS, .insufficientCapacity)
    else
      match find_one_and_update dbCAS event.id res.tickets now with
      | none => (dbCAS, .conflict)
      | some (_updated, db1) =>
        let (rid, db2) := db1.insertReservation res now
        (db2, .ok rid)

/-- `create_reservation` run without interference: the lookup, the
conditional update and the insert all see the same store state. -/
def create_reservation (db : DB) (res : Reservation) (now : Int) :
    DB × ReserveResult :=
  create_reservation_phased db db res now

/-- Two reservation requests arriving simultaneously: both perform their
lookup and capacity pre-check against the same initial state `db0`, then
their atomic conditional updates (each followed by its reservation insert)
execute in the order given by `r1First`.  Returns the final store state
and the two outcomes. -/
def raceSimultaneous (db0 : DB) (r1 r2 : Reservation) (now : Int) (r1First : Bool) :
    DB × ReserveResult × ReserveResult :=
  if r1First then
    let p1 := create_reservation_phased db0 db0 r1 now
    let p2 := create_reservation_phased db0 p1.1 r2 now
    (p2.1, p1.2, p2.2)
  else
    let p2 := create_reservation_phased db0 db0 r2 now
    let p1 := create_reservation_phased db0 p2.1 r1 now
    (p1.1, p1.2, p2.2)

/-! ### Event listing (`list_events` in `src/main.py`) -/

/-- MongoDB `.sort("date", 1)` on the `event` collection: a stable sort in
ascending `date` order, modelled as stable insertion sort. -/
def insertByDate (d : EventDoc) : List EventDoc → List EventDoc
  | [] => [d]
  | x :: xs =>
    if x.ev.date ≤ d.ev.date then x :: insertByDate d xs
    else d :: x :: xs

/-- `db["event"].find({}).sort("date", 1)`. -/
def sortByDate : List EventDoc → List EventDoc
  | [] => []
  | d :: ds => insertByDate d (sortByDate ds)

/-- `Event(**{**d, "id": str(d.get("_id"))})` from `list_events`: the
handler merges the stored document with an extra `"id"` key, but the
pydantic `Event` model declares no `id` field and its default config
ignores extra constructor fields, so the injected id (and the raw `_id`)
are dropped and the response item is exactly the event record. -/
def eventResponse (d : EventDoc) : Event := d.ev

/-- `GET /api/events` (`list_events` in `main.py`). -/
def list_events (db : DB) : List Event :=
  (sortByDate db.events).map eventResponse

/-! ### Video lookup (`current_video` and `video_by_month` in `src/main.py`) -/

/-- `db["video"].find_one({"month_key": key})`: first document of the
collection whose `month_key` equals the filter value. -/
def findVideoByKey (db : DB) (key : String) : Option VideoDoc :=
  db.videos.find? (fun v => v.video.month_key == key)

/-- `db["video"].find_one(sort=[("created_at", -1)])`: the document with
the maximum `created_at` (the first such document in insertion order, the
sort being stable); `none` on an empty collection. -/
def latestVideo : List VideoDoc → Option VideoDoc
  | [] => none
  | d :: ds =>
    match latestVideo ds with
    | none => some d
    | some m => if d.created_at < m.created_at then some m else some d

/-- `GET /api/video/current` (`current_video` in `main.py`); `currentKey`
is `datetime.utcnow().strftime("%Y-%m")`, passed in as the clock value. -/
def current_video (db : DB) (currentKey : String) : Option Video :=
  match findVideoByKey db currentKey with
  | some doc => some doc.video
  | none =>
    match latestVideo db.videos with
    | some doc => some doc.video
    | none => none

/-- `GET /api/video/{month_key}` (`video_by_month` in `main.py`): exact
match only, no fallback. -/
def video_by_month (db : DB) (month_key : String) : Option Video :=
  match findVideoByKey db month_key with
  | some doc => some doc.video
  | none => none

/-! ### Seeding (`seed` in `src/main.py`)

The clock-derived values (`datetime.utcnow()`, the three demo event dates
built from it by `.replace(...)`, and the current month key) enter as
parameters. -/

/-- The demo `Theater` record from `seed`. -/
def demoTheater : Theater :=
  { name := "Kabarett Salon am Kanal"
    tagline := "Quirky. Wien. Mit Schmäh."
    story := "Geboren aus dem Geist der Kaffeehauskultur, lebt unser kleines Kabarett die große Liebe zum spontanen Wort. Zwischen Samtvorhängen und Messinglampen trifft moderner Humor auf den Charme vergangener Nächte."
    address := "Schwarzer-Bären-Gasse 12, 1050 Wien"
    phone := "+43 1 234 56 78"
    email := "kontakt@kabarett-salon.at"
    opening_hours := some "Di–So ab 18:00"
    transport_howto := some "U4 bis Kettenbrückengasse, dann 5 Minuten zu Fuß" }

/-- The first demo `Ownerprofile` record from `seed`. -/
def demoOwner1 : Ownerprofile :=
  { name := "Lena Weiss"
    role := "Leitung & Bühne"
    bio := "Kabarettistin, Dramaturgin und Barflüsterin. Liebt Altbaufliesen und schnelle Pointen."
    image_url := some "https://images.unsplash.com/photo-1544005313-94ddf0286df2?w=600&h=600&fit=crop"
    instagram := some "https://instagram.com/lenakabarett"
    website := none }

/-- The second demo `Ownerprofile` record from `seed`. -/
def demoOwner2 : Ownerprofile :=
  { name := "Milo Berger"
    role := "Impro & Programm"
    bio := "Impro-Spieler und Organisator. Findet Geschichten in jeder U-Bahnfahrt."
    image_url := some "https://images.unsplash.com/photo-1500648767791-00dcc994a43e?w=600&h=600&fit=crop"
    instagram := none
    website := some "https://miloberger.example.com" }

/-- The first demo `Event` record from `seed`; `date1` is
`base_date.replace(hour=19, minute=30, second=0, microsecond=0)`. -/
def demoEvent1 (date1 : Int) : Event :=
  { title := "Wiener Schmäh & Schnapsidee"
    description := "Kabarett-Abend mit Biss und Bussi."
    genre := "Kabarett"
    date := date1
    duration_minutes := 90
    price_eur := 18
    seats_total := 60
    seats_available := 60
    image_url := some "https://images.unsplash.com/photo-1511671782779-c97d3d27a1d4?w=1200&auto=format&fit=crop&q=60" }

/-- The second demo `Event` record from `seed`; `date2` is
`base_date.replace(hour=20, minute=0, second=0, microsecond=0)`. -/
def demoEvent2 (date2 : Int) : Event :=
  { title := "Impro am Kanal: Alles kann passieren"
    description := "Improvisationstheater – du gibst vor, wir legen los!"
    genre := "Impro"
    date := date2
    duration_minutes := 75
    price_eur := 15
    seats_total := 60
    seats_available := 60
    image_url := some "https://images.unsplash.com/photo-1515165562835-c3b8c1ea0f59?w=1200&auto=format&fit=crop&q=60" }

/-- The third demo `Event` record from `seed`; `date3` is
`base_date.replace(day=min(base_date.day + 3, 28), hour=18, ...)`. -/
def demoEvent3 (date3 : Int) : Event :=
  { title := "Werkstatt Humor: Basics für Einsteiger:innen"
    description := "Workshop für spontane Bühnenmenschen."
    genre := "Workshop"
    date := date3
    duration_minutes := 120
    price_eur := 40
    seats_total := 20
    seats_available := 20
    image_url := some "https://images.unsplash.com/photo-1496307042754-b4aa456c4a2d?w=1200&auto=format&fit=crop&q=60" }

/-- The demo `Video` record from `seed`; `monthKey` is
`datetime.utcnow().strftime("%Y-%m")`. -/
def demoVideo (monthKey : String) : Video :=
  { month_key := monthKey
    video_url := "https://cdn.coverr.co/videos/coverr-theatre-actors-having-fun-0044/1080p.mp4"
    caption := some "Aus dem aktuellen Programm" }

/-- `POST /api/seed` (`seed` in `main.py`): a no-op reporting
"Already seeded" when `db["event"].estimated_document_count() > 0`,
otherwise the fixed demo content is inserted (one theater, two owner
profiles, three events, one video) and "Seeded demo data" is reported. -/
def seed (db : DB) (now : Int) (monthKey : String) (date1 date2 date3 : Int) :
    DB × String :=
  if 0 < db.events.length then (db, "Already seeded")
  else
    let db := (db.insertTheater demoTheater now).2
    let db := (db.insertOwner demoOwner1 now).2
    let db := (db.insertOwner demoOwner2 now).2
    let db := (db.insertEvent (demoEvent1 date1) now).2
    let db := (db.insertEvent (demoEvent2 date2) now).2
    let db := (db.insertEvent (demoEvent3 date3) now).2
    let db := (db.insertVideo (demoVideo monthKey) now).2
    (db, "Seeded demo data")

/-! ### Helper lemmas about the store primitives -/

theorem find_first_id (pre post : List EventDoc) (d : EventDoc)
    (hpre : ∀ x ∈ pre, x.id ≠ d.id) :
    (pre ++ d :: post).find? (fun x => x.id == d.id) = some d := by
  induction pre with
  | nil => simp
  | cons x xs ih =>
    have hx : (x.id == d.id) = false := by
      simpa using hpre x (List.mem_cons_self x xs)
    simp only [List.cons_append, List.find?_cons, hx]
    exact ih fun y hy => hpre y (List.mem_cons_of_mem _ hy)

theorem findEvent_decomp (db : DB) (pre post : List EventDoc) (d : EventDoc)
    (hev : db.events = pre ++ d :: post)
    (hpre : ∀ x ∈ pre, x.id ≠ d.id) :
    findEvent db d.id = some d := by
  unfold findEvent
  rw [hev]
  exact find_first_id pre post d hpre

theorem updateFirst_decomp (p : EventDoc → Bool) (f : EventDoc → EventDoc)
    (pre post : List EventDoc) (d : EventDoc)
    (hpre : ∀ x ∈ pre, p x = false) (hd : p d = true) :
    updateFirst p f (pre ++ d :: post) = some (f d, pre ++ f d :: post) := by
  induction pre with
  | nil => simp [updateFirst, hd]
  | cons x xs ih =>
    have hx : p x = false := hpre x (List.mem_cons_self x xs)
    have ih' := ih fun y hy => hpre y (List.mem_cons_of_mem _ hy)
    simp [updateFirst, hx, ih']

theorem updateFirst_none (p : EventDoc → Bool) (f : EventDoc → EventDoc)
    (l : List EventDoc) (h : ∀ x ∈ l, p x = false) :
    updateFirst p f l = none := by
  induction l with
  | nil => rfl
  | cons x xs ih =>
    have hx : p x = false := h x (List.mem_cons_self x xs)
    have ih' := ih fun y hy => h y (List.mem_cons_of_mem _ hy)
    simp [updateFirst, hx, ih']

theorem updateFirst_mem (p : EventDoc → Bool) (f : EventDoc → EventDoc)
    (l l' : List EventDoc) (u : EventDoc)
    (h : updateFirst p f l = some (u, l')) :
    ∀ y ∈ l', y ∈ l ∨ ∃ x, x ∈ l ∧ p x = true ∧ y = f x := by
  induction l generalizing l' u with
  | nil => simp [updateFirst] at h
  | cons x xs ih =>
    by_cases hx : p x = true
    · rw [updateFirst, if_pos hx] at h
      obtain ⟨hu, hl⟩ : f x = u ∧ f x :: xs = l' := by simpa using h
      intro y hy
      rw [← hl] at hy
      rcases List.mem_cons.mp hy with rfl | hy
      · exact Or.inr ⟨x, List.mem_cons_self x xs, hx, rfl⟩
      · exact Or.inl (List.mem_cons_of_mem _ hy)
    · rw [updateFirst, if_neg hx] at h
      cases hrec : updateFirst p f xs with
      | none => rw [hrec] at h; exact Option.noConfusion h
      | some pr =>
        obtain ⟨u', xs'⟩ := pr
        rw [hrec] at h
        obtain ⟨hu, hl⟩ : u' = u ∧ x :: xs' = l' := by simpa using h
        intro y hy
        rw [← hl] at hy
        rcases List.mem_cons.mp hy with rfl | hy
        · exact Or.inl (List.mem_cons_self _ _)
        · rcases ih xs' u' hrec y hy with hm | ⟨z, hz, hpz, hyz⟩
          · exact Or.inl (List.mem_cons_of_mem _ hm)
          · exact Or.inr ⟨z, List.mem_cons_of_mem _ hz, hpz, hyz⟩

/-- A successful run of `create_reservation`: the event is found, the
capacity suffices, the conditional update decrements the first document
with that id, and the reservation is inserted with the generated id. -/
theorem create_reservation_success (db : DB) (pre post : List EventDoc)
    (d : EventDoc) (res : Reservation) (now : Int)
    (hev : db.events = pre ++ d :: post)
    (hpre : ∀ x ∈ pre, x.id ≠ d.id)
    (hid : res.event_id = d.id)
    (ht : res.tickets ≤ d.ev.seats_available) :
    create_reservation db res now =
      ({ db with
          events := pre ++ casApply res.tickets now d :: post,
          reservations := db.reservations ++ [⟨db.freshId, res, now⟩],
          nextId := db.nextId + 1 },
       .ok db.freshId) := by
  have hfind : findEvent db res.event_id = some d := by
    rw [hid]; exact findEvent_decomp db pre post d hev hpre
  have hnlt : ¬ d.ev.seats_available < res.tickets := not_lt.mpr ht
  have hmatch :
      updateFirst (casMatch d.id res.tickets) (casApply res.tickets now)
        db.events = some (casApply res.tickets now d,
          pre ++ casApply res.tickets now d :: post) := by
    rw [hev]
    refine updateFirst_decomp _ _ pre post d (fun x hx => ?_) ?_
    · simp [casMatch, hpre x hx]
    · simp [casMatch, ht]
  simp only [create_reservation, create_reservation_phased, hfind, hnlt,
    if_false, find_one_and_update, hmatch, DB.insertReservation, DB.freshId]

/-- A run of `create_reservation` rejected by the optimistic pre-check:
the handler raises 400 before attempting any update. -/
theorem create_reservation_insufficient (db : DB) (d : EventDoc)
    (res : Reservation) (now : Int)
    (hfind : findEvent db res.event_id = some d)
    (hlt : d.ev.seats_available < res.tickets) :
    create_reservation db res now = (db, .insufficientCapacity) := by
  simp [create_reservation, create_reservation_phased, hfind, hlt]

/-- A run of `create_reservation` on a missing event id: 404, no change. -/
theorem create_reservation_notFound_eq (db : DB) (res : Reservation) (now : Int)
    (h : findEvent db res.event_id = none) :
    create_reservation db res now = (db, .notFound) := by
  simp [create_reservation, create_reservation_phased, h]

/-- A run of `create_reservation` whose conditional update matches no
document: 409, no change. -/
theorem create_reservation_conflict_eq (db : DB) (res : Reservation)
    (now : Int) (d : EventDoc)
    (hfind : findEvent db res.event_id = some d)
    (hge : res.tickets ≤ d.ev.seats_available)
    (hcas : updateFirst (casMatch d.id res.tickets) (casApply res.tickets now)
      db.events = none) :
    create_reservation db res now = (db, .conflict) := by
  simp [create_reservation, create_reservation_phased, hfind, not_lt.mpr hge,
    find_one_and_update, hcas]

/-- The event list after a successful run of `create_reservation` is the
updated list produced by the conditional update. -/
theorem create_reservation_events_eq (db : DB) (res : Reservation) (now : Int)
    (d u : EventDoc) (evs : List EventDoc)
    (hfind : findEvent db res.event_id = some d)
    (hge : res.tickets ≤ d.ev.seats_available)
    (hcas : updateFirst (casMatch d.id res.tickets) (casApply res.tickets now)
      db.events = some (u, evs)) :
    (create_reservation db res now).1.events = evs := by
  simp [create_reservation, create_reservation_phased, hfind, not_lt.mpr hge,
    find_one_and_update, hcas, DB.insertReservation]

theorem latestVideo_isSome (l : List VideoDoc) (h : l ≠ []) :
    ∃ d, latestVideo l = some d := by
  cases l with
  | nil => exact absurd rfl h
  | cons x xs =>
    rw [latestVideo]
    cases latestVideo xs with
    | none => exact ⟨x, rfl⟩
    | some m =>
      by_cases hc : x.created_at < m.created_at
      · exact ⟨m, by simp [hc]⟩
      · exact ⟨x, by simp [hc]⟩

theorem latestVideo_mem_le (l : List VideoDoc) (d : VideoDoc)
    (h : latestVideo l = some d) :
    d ∈ l ∧ ∀ x ∈ l, x.created_at ≤ d.created_at := by
  induction l generalizing d with
  | nil => simp [latestVideo] at h
  | cons x xs ih =>
    rw [latestVideo] at h
    cases hrec : latestVideo xs with
    | none =>
      rw [hrec] at h
      obtain rfl : x = d := by simpa using h
      refine ⟨List.mem_cons_self _ _, ?_⟩
      intro y hy
      rcases List.mem_cons.mp hy with rfl | hy
      · exact le_refl _
      · exfalso
        obtain ⟨m, hm⟩ := latestVideo_isSome xs (by rintro rfl; simp at hy)
        rw [hm] at hrec
        exact Option.noConfusion hrec
    | some m =>
      rw [hrec] at h
      obtain ⟨hm, hle⟩ := ih m hrec
      by_cases hc : x.created_at < m.created_at
      · obtain rfl : m = d := by simpa [hc] using h
        refine ⟨List.mem_cons_of_mem _ hm, ?_⟩
        intro y hy
        rcases List.mem_cons.mp hy with rfl | hy
        · exact le_of_lt hc
        · exact hle y hy
      · obtain rfl : x = d := by simpa [hc] using h
        refine ⟨List.mem_cons_self _ _, ?_⟩
        intro y hy
        rcases List.mem_cons.mp hy with rfl | hy
        · exact le_refl _
        · exact le_trans (hle y hy) (not_lt.mp hc)

/-! ### Concrete data for witnesses -/

/-- An event record with 4 seats left, used by witnesses. -/
def witEvent : Event :=
  { title := "Wiener Schmäh & Schnapsidee"
    description := "Kabarett-Abend mit Biss und Bussi."
    genre := "Kabarett"
    date := 0
    duration_minutes := 90
    price_eur := 18
    seats_total := 60
    seats_available := 4
    image_url := none }

/-- The stored document for `witEvent`. -/
def witEventDoc : EventDoc := ⟨"ev1", witEvent, 0, none⟩

/-- A store holding exactly `witEventDoc`. -/
def witDB : DB := ⟨[witEventDoc], [], [], [], [], [], 1⟩

/-- A reservation request for all 4 remaining seats of `witEventDoc`. -/
def witRes4 : Reservation := ⟨"ev1", "Anna Gruber", "anna@example.com", 4, none⟩

/-- A reservation request for 1 seat of `witEventDoc`. -/
def witRes1 : Reservation := ⟨"ev1", "Max Huber", "max@example.com", 1, none⟩

/-- A reservation request for 6 seats of `witEventDoc` (more than remain). -/
def witRes6 : Reservation := ⟨"ev1", "Eva Maier", "eva@example.com", 6, none⟩

/-- A store with no documents at all. -/
def emptyDB : DB := ⟨[], [], [], [], [], [], 0⟩

/-! ### The claims -/

/-- C5: for every reservation request whose event id matches no Event
document, `create_reservation` fails with NotFound (404) and the store
state is completely unchanged — no decrement is attempted and no
Reservation record is written. -/
theorem C5_reserve_not_found (db : DB) (res : Reservation) (now : Int)
    (h : findEvent db res.event_id = none) :
    create_reservation db res now = (db, .notFound) := by
  simp [create_reservation, create_reservation_phased, h]

theorem C5_witness :
    findEvent emptyDB witRes1.event_id = none ∧
    create_reservation emptyDB witRes1 0 = (emptyDB, ReserveResult.notFound) :=
  ⟨rfl, C5_reserve_not_found emptyDB witRes1 0 rfl⟩

/-- C4: the two capacity failures are distinguished.  If the event is found
and its optimistically-read `seats_available` is strictly below the
requested ticket count, the handler fails with InsufficientCapacity (400)
and leaves the store untouched, before attempting any update.  If the
pre-check passes (against the state `dbRead` it read) but the atomic
conditional update finds no matching document in the store state `dbCAS`
it runs against, the handler fails with Conflict (409) and leaves the
store untouched.  In both failure cases no Reservation record is
created. -/
theorem C4_capacity_failure_modes (db dbRead dbCAS : DB) (d : EventDoc)
    (res : Reservation) (now : Int) :
    (findEvent db res.event_id = some d →
      d.ev.seats_available < res.tickets →
      create_reservation db res now = (db, .insufficientCapacity)) ∧
    (findEvent dbRead res.event_id = some d →
      res.tickets ≤ d.ev.seats_available →
      find_one_and_update dbCAS d.id res.tickets now = none →
      create_reservation_phased dbRead dbCAS res now = (dbCAS, .conflict)) := by
  constructor
  · intro hfind hlt
    exact create_reservation_insufficient db d res now hfind hlt
  · intro hfind hge hcas
    simp [create_reservation_phased, hfind, not_lt.mpr hge, hcas]

/-- A copy of `witDB` whose event has only 2 seats left, standing for the
state after a concurrent reservation consumed capacity. -/
def witDBLow : DB :=
  ⟨[⟨"ev1", { witEvent with seats_available := 2 }, 0, none⟩], [], [], [], [], [], 1⟩

/-- A reservation request for 3 seats of `witEventDoc`. -/
def witRes3 : Reservation := ⟨"ev1", "Mia Steiner", "mia@example.com", 3, none⟩

theorem C4_witness :
    (create_reservation witDB witRes6 0 = (witDB, ReserveResult.insufficientCapacity)) ∧
    (create_reservation_phased witDB witDBLow witRes3 0
      = (witDBLow, ReserveResult.conflict)) :=
  ⟨(C4_capacity_failure_modes witDB witDB witDBLow witEventDoc witRes6 0).1
      (by decide) (by decide),
   (C4_capacity_failure_modes witDB witDB witDBLow witEventDoc witRes3 0).2
      (by decide) (by decide) (by decide)⟩

/-- C2: the invariant `0 ≤ seats_available ≤ seats_total` holds for every
event document after any reservation attempt (successful, NotFound,
InsufficientCapacity or Conflict), provided it held before and the
request passed the schema's ticket validation: the decrement is guarded
by `seats_available ≥ tickets`, so the count never goes negative, and it
only ever decreases, so it never exceeds `seats_total`. -/
theorem C2_seats_invariant (db : DB) (res : Reservation) (now : Int)
    (hres : Reservation.validb res = true)
    (hinv : ∀ d ∈ db.events,
      0 ≤ d.ev.seats_available ∧ d.ev.seats_available ≤ d.ev.seats_total) :
    ∀ d ∈ (create_reservation db res now).1.events,
      0 ≤ d.ev.seats_available ∧ d.ev.seats_available ≤ d.ev.seats_total := by
  obtain ⟨h1, -⟩ : 1 ≤ res.tickets ∧ res.tickets ≤ 10 := by
    simpa [Reservation.validb] using hres
  cases hfind : findEvent db res.event_id with
  | none =>
    rw [create_reservation_notFound_eq db res now hfind]
    simpa using hinv
  | some event =>
    by_cases hlt : event.ev.seats_available < res.tickets
    · rw [create_reservation_insufficient db event res now hfind hlt]
      simpa using hinv
    · cases hup : updateFirst (casMatch event.id res.tickets)
          (casApply res.tickets now) db.events with
      | none =>
        rw [create_reservation_conflict_eq db res now event hfind (not_lt.mp hlt) hup]
        simpa using hinv
      | some pr =>
        obtain ⟨u, evs⟩ := pr
        rw [create_reservation_events_eq db res now event u evs hfind
          (not_lt.mp hlt) hup]
        intro d hd
        rcases updateFirst_mem _ _ db.events evs u hup d hd with hmem | ⟨x, hx, hpx, rfl⟩
        · exact hinv d hmem
        · have hge : res.tickets ≤ x.ev.seats_available := by
            have h' := hpx
            simp [casMatch] at h'
            exact h'.2
          obtain ⟨hx0, hxt⟩ := hinv x hx
          refine ⟨?_, ?_⟩ <;> simp only [casApply] <;> omega

theorem C2_witness :
    (create_reservation witDB witRes4 0).1.events.all
      (fun d => decide (0 ≤ d.ev.seats_available) &&
                decide (d.ev.seats_available ≤ d.ev.seats_total)) = true := by
  rw [List.all_eq_true]
  intro d hd
  have h := C2_seats_invariant witDB witRes4 0 (by decide) (by decide) d hd
  simp [h.1, h.2]

/-- C1: for an event with `seats_available = N` (N in the valid ticket
range 1–10), a reservation request for exactly N tickets succeeds: the
handler returns the generated reservation id, appends the Reservation
record to the store, and the conditional update leaves the event with
`seats_available = 0`; a subsequent request for 1 ticket on the same event
then fails with InsufficientCapacity or Conflict, leaving the store
unchanged. -/
theorem C1_full_capacity_reservation
    (db : DB) (pre post : List EventDoc) (d : EventDoc)
    (res res2 : Reservation) (now now2 : Int) (N : Int)
    (hev : db.events = pre ++ d :: post)
    (hpre : ∀ x ∈ pre, x.id ≠ d.id)
    (hN : d.ev.seats_available = N)
    (hN1 : 1 ≤ N) (hN10 : N ≤ 10)
    (hid : res.event_id = d.id) (ht : res.tickets = N)
    (hid2 : res2.event_id = d.id) (ht2 : res2.tickets = 1) :
    (create_reservation db res now).2 = .ok db.freshId ∧
    (create_reservation db res now).1.reservations
      = db.reservations ++ [⟨db.freshId, res, now⟩] ∧
    (∃ d', findEvent (create_reservation db res now).1 d.id = some d' ∧
      d'.ev.seats_available = 0) ∧
    ((create_reservation (create_reservation db res now).1 res2 now2).2
        = .insufficientCapacity ∨
     (create_reservation (create_reservation db res now).1 res2 now2).2
        = .conflict) ∧
    (create_reservation (create_reservation db res now).1 res2 now2).1
      = (create_reservation db res now).1 := by
  have hsucc := create_reservation_success db pre post d res now hev hpre hid
    (by rw [ht, hN])
  have hd1ev : (create_reservation db res now).1.events
      = pre ++ casApply res.tickets now d :: post := by rw [hsucc]
  have hfind2 : findEvent (create_reservation db res now).1 res2.event_id
      = some (casApply res.tickets now d) := by
    rw [hid2]
    exact findEvent_decomp _ pre post (casApply res.tickets now d) hd1ev hpre
  have hlow : (casApply res.tickets now d).ev.seats_available < res2.tickets := by
    simp [casApply, ht, hN, ht2]
  have hfail := create_reservation_insufficient _ _ _ now2 hfind2 hlow
  refine ⟨by rw [hsucc], by rw [hsucc], ?_, ?_, ?_⟩
  · refine ⟨casApply res.tickets now d, ?_, by simp [casApply, ht, hN]⟩
    exact findEvent_decomp _ pre post (casApply res.tickets now d) hd1ev hpre
  · exact Or.inl (by rw [hfail])
  · rw [hfail]

theorem C1_witness :
    (create_reservation witDB witRes4 0).2 = ReserveResult.ok witDB.freshId ∧
    (create_reservation witDB witRes4 0).1.reservations
      = witDB.reservations ++ [⟨witDB.freshId, witRes4, 0⟩] ∧
    (∃ d', findEvent (create_reservation witDB witRes4 0).1 witEventDoc.id = some d' ∧
      d'.ev.seats_available = 0) ∧
    ((create_reservation (create_reservation witDB witRes4 0).1 witRes1 0).2
        = ReserveResult.insufficientCapacity ∨
     (create_reservation (create_reservation witDB witRes4 0).1 witRes1 0).2
        = ReserveResult.conflict) ∧
    (create_reservation (create_reservation witDB witRes4 0).1 witRes1 0).1
      = (create_reservation witDB witRes4 0).1 :=
  C1_full_capacity_reservation witDB [] [] witEventDoc witRes4 witRes1 0 0 4
    rfl (by simp) rfl (by decide) (by decide) rfl rfl rfl rfl

/-- C3: two reservation requests for 3 tickets each arriving simultaneously
at an event with `seats_available = 5` cannot both succeed.  Both
pre-checks read the initial state; whichever atomic conditional decrement
runs first (either order `b`) succeeds and the other finds no matching
document and fails with Conflict; the event ends with
`seats_available = 2`. -/
theorem C3_concurrent_requests_race
    (db : DB) (pre post : List EventDoc) (d : EventDoc)
    (r1 r2 : Reservation) (now : Int) (b : Bool)
    (hev : db.events = pre ++ d :: post)
    (hpre : ∀ x ∈ pre, x.id ≠ d.id) (hpost : ∀ x ∈ post, x.id ≠ d.id)
    (h5 : d.ev.seats_available = 5)
    (hid1 : r1.event_id = d.id) (ht1 : r1.tickets = 3)
    (hid2 : r2.event_id = d.id) (ht2 : r2.tickets = 3) :
    (¬ ((∃ a, (raceSimultaneous db r1 r2 now b).2.1 = .ok a) ∧
        (∃ a, (raceSimultaneous db r1 r2 now b).2.2 = .ok a))) ∧
    (b = true → (raceSimultaneous db r1 r2 now b).2.1 = .ok db.freshId ∧
                (raceSimultaneous db r1 r2 now b).2.2 = .conflict) ∧
    (b = false → (raceSimultaneous db r1 r2 now b).2.1 = .conflict ∧
                 (raceSimultaneous db r1 r2 now b).2.2 = .ok db.freshId) ∧
    (∃ d', findEvent (raceSimultaneous db r1 r2 now b).1 d.id = some d' ∧
           d'.ev.seats_available = 2) := by
  have hsucc : ∀ r : Reservation, r.event_id = d.id → r.tickets = 3 →
      create_reservation_phased db db r now =
        ({ db with
            events := pre ++ casApply r.tickets now d :: post,
            reservations := db.reservations ++ [⟨db.freshId, r, now⟩],
            nextId := db.nextId + 1 }, .ok db.freshId) := by
    intro r hid ht
    exact create_reservation_success db pre post d r now hev hpre hid
      (by rw [ht, h5]; omega)
  have hconfl : ∀ (r : Reservation) (dbX : DB) (tw : Int),
      r.event_id = d.id → r.tickets = 3 →
      dbX.events = pre ++ casApply tw now d :: post → tw = 3 →
      create_reservation_phased db dbX r now = (dbX, .conflict) := by
    intro r dbX tw hid ht hevX htw
    have hfind : findEvent db r.event_id = some d := by
      rw [hid]; exact findEvent_decomp db pre post d hev hpre
    have hnlt : ¬ d.ev.seats_available < r.tickets := by rw [ht, h5]; omega
    have hnone : updateFirst (casMatch d.id r.tickets)
        (casApply r.tickets now) dbX.events = none := by
      rw [hevX]
      apply updateFirst_none
      intro x hx
      rcases List.mem_append.mp hx with hx | hx
      · simp [casMatch, hpre x hx]
      · rcases List.mem_cons.mp hx with rfl | hx
        · simp [casMatch, casApply, h5, ht, htw]
        · simp [casMatch, hpost x hx]
    simp [create_reservation_phased, hfind, hnlt, find_one_and_update, hnone]
  cases b with
  | true =>
    have h1 := hsucc r1 hid1 ht1
    have h2 := hconfl r2 (create_reservation_phased db db r1 now).1
      r1.tickets hid2 ht2 (by rw [h1]) ht1
    have hrace : raceSimultaneous db r1 r2 now true
        = ((create_reservation_phased db db r1 now).1,
           (create_reservation_phased db db r1 now).2, .conflict) := by
      simp only [raceSimultaneous, if_pos]
      rw [h2]
    refine ⟨?_, fun _ => ⟨?_, ?_⟩, fun hb => by simp at hb, ?_⟩
    · rintro ⟨-, a, ha⟩
      rw [hrace] at ha
      exact ReserveResult.noConfusion ha
    · rw [hrace, h1]
    · rw [hrace]
    · refine ⟨casApply r1.tickets now d, ?_, by simp [casApply, ht1, h5]⟩
      rw [hrace]
      exact findEvent_decomp _ pre post (casApply r1.tickets now d)
        (by rw [h1]) hpre
  | false =>
    have h2 := hsucc r2 hid2 ht2
    have h1 := hconfl r1 (create_reservation_phased db db r2 now).1
      r2.tickets hid1 ht1 (by rw [h2]) ht2
    have hrace : raceSimultaneous db r1 r2 now false
        = ((create_reservation_phased db db r2 now).1, .conflict,
           (create_reservation_phased db db r2 now).2) := by
      simp only [raceSimultaneous, Bool.false_eq_true, if_neg, if_false]
      rw [h1]
    refine ⟨?_, fun hb => by simp at hb, fun _ => ⟨?_, ?_⟩, ?_⟩
    · rintro ⟨⟨a, ha⟩, -⟩
      rw [hrace] at ha
      exact ReserveResult.noConfusion ha
    · rw [hrace]
    · rw [hrace, h2]
    · refine ⟨casApply r2.tickets now d, ?_, by simp [casApply, ht2, h5]⟩
      rw [hrace]
      exact findEvent_decomp _ pre post (casApply r2.tickets now d)
        (by rw [h2]) hpre

/-- A store holding one event with 5 seats left, for the race witness. -/
def witDB5 : DB :=
  ⟨[⟨"ev1", { witEvent with seats_available := 5 }, 0, none⟩], [], [], [], [], [], 1⟩

/-- A second request for 3 seats of the same event. -/
def witRes3b : Reservation := ⟨"ev1", "Jan Bauer", "jan@example.com", 3, none⟩

theorem C3_witness :
    (¬ ((∃ a, (raceSimultaneous witDB5 witRes3 witRes3b 0 true).2.1
            = ReserveResult.ok a) ∧
        (∃ a, (raceSimultaneous witDB5 witRes3 witRes3b 0 true).2.2
            = ReserveResult.ok a))) ∧
    (true = true →
      (raceSimultaneous witDB5 witRes3 witRes3b 0 true).2.1
          = ReserveResult.ok witDB5.freshId ∧
      (raceSimultaneous witDB5 witRes3 witRes3b 0 true).2.2
          = ReserveResult.conflict) ∧
    (true = false →
      (raceSimultaneous witDB5 witRes3 witRes3b 0 true).2.1
          = ReserveResult.conflict ∧
      (raceSimultaneous witDB5 witRes3 witRes3b 0 true).2.2
          = ReserveResult.ok witDB5.freshId) ∧
    (∃ d', findEvent (raceSimultaneous witDB5 witRes3 witRes3b 0 true).1
        (⟨"ev1", { witEvent with seats_available := 5 }, 0, none⟩ : EventDoc).id
          = some d' ∧
       d'.ev.seats_available = 2) :=
  C3_concurrent_requests_race witDB5 [] []
    ⟨"ev1", { witEvent with seats_available := 5 }, 0, none⟩
    witRes3 witRes3b 0 true rfl (by simp) (by simp) (by decide)
    rfl rfl rfl rfl

/-- An event record accepted by every validation constraint of the `Event`
schema although `seats_available` exceeds `seats_total`. -/
def badEvent : Event :=
  { title := "Überbuchte Nacht"
    description := "Ein Abend"
    genre := "Kabarett"
    date := 0
    duration_minutes := 90
    price_eur := 0
    seats_total := 1
    seats_available := 5
    image_url := none }

/-- C6 (counterexample): the `Event` schema does **not** enforce
`seats_available ≤ seats_total`: `badEvent` passes every declared field
constraint while having 5 seats available out of 1 total. -/
theorem C6_counterexample :
    Event.validb badEvent = true ∧ badEvent.seats_total < badEvent.seats_available := by
  constructor
  · decide
  · decide

/-- C6 (amended): the constraints the `Event` schema does enforce on the
seat fields are `seats_total ≥ 1` and `seats_available ≥ 0`; no declared
constraint relates the two fields. -/
theorem C6_amended_seat_bounds (e : Event) (h : Event.validb e = true) :
    1 ≤ e.seats_total ∧ 0 ≤ e.seats_available := by
  simp only [Event.validb, Bool.and_eq_true, decide_eq_true_eq] at h
  exact ⟨h.1.2, h.2⟩

theorem C6_witness :
    Event.validb witEvent = true ∧
    (1 ≤ witEvent.seats_total ∧ 0 ≤ witEvent.seats_available) :=
  ⟨by decide, C6_amended_seat_bounds witEvent (by decide)⟩

/-- A video record whose `month_key` is not of the `"YYYY-MM"` form. -/
def badVideo : Video :=
  { month_key := "not-a-month"
    video_url := "https://example.com/v.mp4"
    caption := none }

/-- C9 (counterexample): the `Video` schema does **not** reject month keys
outside the `"YYYY-MM"` format: `badVideo` passes validation although its
`month_key` fails the spec's format. -/
theorem C9_counterexample :
    Video.validb badVideo = true ∧ monthKeySpecFormat badVideo.month_key = false := by
  constructor
  · rfl
  · decide

/-- C9 (amended): the `Video` schema accepts every string as `month_key`
(and every string as `video_url`, every optional string as `caption`); the
`"YYYY-MM"` format appears only in the field's description text, not as a
validation constraint. -/
theorem C9_amended_any_month_key (s url : String) (c : Option String) :
    Video.validb ⟨s, url, c⟩ = true := rfl

/-- C7: the current-video lookup of `GET /api/video/current`.
If the collection is empty the result is absent (not an error).  If some
document's `month_key` equals the current month key, the result is such a
document's record.  If no document matches the current key but the
collection is non-empty, the result is the record of a document with the
maximum creation timestamp — in particular a video from a prior month is
returned rather than absent. -/
theorem C7_current_video_fallback (db : DB) (key : String) :
    (db.videos = [] → current_video db key = none) ∧
    ((∃ v ∈ db.videos, v.video.month_key = key) →
      ∃ doc, findVideoByKey db key = some doc ∧ doc.video.month_key = key ∧
        current_video db key = some doc.video) ∧
    ((∀ v ∈ db.videos, v.video.month_key ≠ key) → db.videos ≠ [] →
      ∃ doc, doc ∈ db.videos ∧ current_video db key = some doc.video ∧
        ∀ x ∈ db.videos, x.created_at ≤ doc.created_at) := by
  refine ⟨?_, ?_, ?_⟩
  · intro h
    simp [current_video, findVideoByKey, latestVideo, h]
  · rintro ⟨v, hv, hkey⟩
    have hs : (db.videos.find? (fun x => x.video.month_key == key)).isSome := by
      rw [List.find?_isSome]
      exact ⟨v, hv, by simp [hkey]⟩
    obtain ⟨doc, hdoc⟩ := Option.isSome_iff_exists.mp hs
    have hk : doc.video.month_key = key := by
      have := List.find?_some hdoc
      simpa using this
    exact ⟨doc, hdoc, hk, by simp [current_video, findVideoByKey, hdoc]⟩
  · intro hnone hne
    have hfnone : db.videos.find? (fun x => x.video.month_key == key) = none := by
      rw [List.find?_eq_none]
      intro x hx
      simp [hnone x hx]
    obtain ⟨doc, hdoc⟩ := latestVideo_isSome db.videos hne
    obtain ⟨hmem, hle⟩ := latestVideo_mem_le db.videos doc hdoc
    exact ⟨doc, hmem,
      by simp [current_video, findVideoByKey, hfnone, hdoc], hle⟩

/-- A store holding one video from a prior month (September) while the
current month key is October. -/
def priorVideoDoc : VideoDoc :=
  ⟨"v1", ⟨"2025-09", "https://example.com/sep.mp4", none⟩, 5⟩

/-- The store for the C7 witness. -/
def vidDB : DB := ⟨[], [], [], [], [], [priorVideoDoc], 2⟩

theorem C7_witness :
    ∃ doc, doc ∈ vidDB.videos ∧
      current_video vidDB "2025-10" = some doc.video ∧
      ∀ x ∈ vidDB.videos, x.created_at ≤ doc.created_at :=
  (C7_current_video_fallback vidDB "2025-10").2.2 (by decide) (by decide)

/-- C8: seeding is idempotent.  If any Event document exists, `seed` is a
no-op reporting "Already seeded".  On an empty event collection it creates
exactly three Events, one Theater, two Ownerprofiles and one Video and
reports "Seeded demo data".  Running `seed` twice (with any clock values)
leaves exactly the state after the first run. -/
theorem C8_seed_idempotent (db : DB) (now now2 : Int) (mk mk2 : String)
    (d1 d2 d3 e1 e2 e3 : Int) :
    (db.events ≠ [] → seed db now mk d1 d2 d3 = (db, "Already seeded")) ∧
    (db.events = [] →
      (seed db now mk d1 d2 d3).1.events.length = 3 ∧
      (seed db now mk d1 d2 d3).1.theaters.length = db.theaters.length + 1 ∧
      (seed db now mk d1 d2 d3).1.ownerprofiles.length
        = db.ownerprofiles.length + 2 ∧
      (seed db now mk d1 d2 d3).1.videos.length = db.videos.length + 1 ∧
      (seed db now mk d1 d2 d3).2 = "Seeded demo data") ∧
    (seed (seed db now mk d1 d2 d3).1 now2 mk2 e1 e2 e3).1
      = (seed db now mk d1 d2 d3).1 := by
  by_cases h : db.events = []
  · have hlen : ¬ 0 < db.events.length := by simp [h]
    have hseeded : (seed db now mk d1 d2 d3).1.events.length = 3 := by
      simp [seed, hlen, DB.insertTheater, DB.insertOwner, DB.insertEvent,
        DB.insertVideo, h]
    refine ⟨fun hne => absurd h hne, fun _ => ⟨hseeded, ?_, ?_, ?_, ?_⟩, ?_⟩
    · simp [seed, hlen, DB.insertTheater, DB.insertOwner, DB.insertEvent,
        DB.insertVideo]
    · simp [seed, hlen, DB.insertTheater, DB.insertOwner, DB.insertEvent,
        DB.insertVideo]
    · simp [seed, hlen, DB.insertTheater, DB.insertOwner, DB.insertEvent,
        DB.insertVideo]
    · simp [seed, hlen]
    · have : 0 < (seed db now mk d1 d2 d3).1.events.length := by
        rw [hseeded]; omega
      rw [seed, if_pos this]
  · have hlen : 0 < db.events.length := List.length_pos.mpr h
    have hfst : seed db now mk d1 d2 d3 = (db, "Already seeded") := by
      rw [seed, if_pos hlen]
    refine ⟨fun _ => hfst, fun he => absurd he h, ?_⟩
    rw [hfst]
    rw [seed, if_pos hlen]

theorem C8_witness :
    (seed emptyDB 0 "2025-10" 1 2 3).1.events.length = 3 ∧
    (seed (seed emptyDB 0 "2025-10" 1 2 3).1 7 "2025-11" 4 5 6).1
      = (seed emptyDB 0 "2025-10" 1 2 3).1 :=
  ⟨((C8_seed_idempotent emptyDB 0 7 "2025-10" "2025-11" 1 2 3 4 5 6).2.1 rfl).1,
   (C8_seed_idempotent emptyDB 0 7 "2025-10" "2025-11" 1 2 3 4 5 6).2.2⟩

/-- Replacing a stored event document's generated id, leaving the schema
fields alone.  Formalizes "the response depends on the document id": if
`list_events` exposed any identifier, renaming ids would change it. -/
def renameId (f : String → String) (d : EventDoc) : EventDoc :=
  { d with id := f d.id }

theorem insertByDate_rename (f : String → String) (d : EventDoc)
    (l : List EventDoc) :
    insertByDate (renameId f d) (l.map (renameId f))
      = (insertByDate d l).map (renameId f) := by
  induction l with
  | nil => rfl
  | cons x xs ih =>
    have hdx : (renameId f x).ev.date = x.ev.date := rfl
    have hdd : (renameId f d).ev.date = d.ev.date := rfl
    by_cases hc : x.ev.date ≤ d.ev.date
    · simp only [List.map_cons, insertByDate, hdx, hdd, if_pos hc, ih]
    · simp only [List.map_cons, insertByDate, hdx, hdd, if_neg hc]

theorem sortByDate_rename (f : String → String) (l : List EventDoc) :
    sortByDate (l.map (renameId f)) = (sortByDate l).map (renameId f) := by
  induction l with
  | nil => rfl
  | cons x xs ih =>
    simp only [List.map_cons, sortByDate, ih]
    exact insertByDate_rename f x (sortByDate xs)

/-- C10: the items `GET /api/events` returns carry no event identifier.
The handler injects the document's `_id` as an extra `"id"` key, but the
pydantic `Event` response model declares no `id` field and drops extra
fields, so the response is invariant under arbitrary renaming of every
stored document id — no caller can recover an `event_id` from this
endpoint. -/
theorem C10_listing_exposes_no_id (db : DB) (f : String → String) :
    list_events { db with events := db.events.map (renameId f) }
      = list_events db := by
  unfold list_events
  simp only
  rw [sortByDate_rename]
  rw [List.map_map]
  rfl

end Cabaret
